import Mathlib

/-
Verification of the JNI dataset wrapper (cpp/src/jni/dataset/jni_wrapper.cc)
against its natural-language specification.

The embedding models the boundary-crossing mechanics of the wrapper:
  - Arrow arrays as a value buffer plus a logical offset/length window,
    and the offset-zeroing export path of nextRecordBatch;
  - the scan adaptor (DisposableScannerAdaptor) over a batch iterator;
  - the Java-iterator-backed record-batch pull of MakeJavaDatasetScanner,
    with an explicit trace of the host (JVM) calls it makes;
  - the ReserveFromJava reservation listener bridge;
  - the memory-pool create/release handle lifecycle, with an explicit
    native heap so that use-after-free is observable;
  - file-format id resolution and scanner projection setup.

Functions of this repository that are not part of the given source file
(arrow::Concatenate, arrow::dataset::jni::ImportRecordBatch, the
ReservationListenableMemoryPool allocation path, arrow::dataset::ScannerBuilder)
are either taken as abstract parameters or modelled from the spec, as marked
in their doc comments.
-/

namespace ArrowJni

/-- An Arrow array: an underlying buffer of values together with a logical
offset and length, mirroring the offset/length slicing of arrow::Array over
its data buffer. -/
structure AArray where
  buffer : List Int
  off : Nat
  len : Nat
deriving Repr, DecidableEq

/-- The logical (sliced) view of an array: the `len` values starting at
`off` in the underlying buffer. -/
def AArray.values (a : AArray) : List Int :=
  (a.buffer.drop a.off).take a.len

/-- Well-formedness of an array: the logical window lies inside the buffer. -/
def AArray.wf (a : AArray) : Prop :=
  a.off + a.len ≤ a.buffer.length

instance (a : AArray) : Decidable a.wf := by
  unfold AArray.wf; infer_instance

/-- A record batch: a schema (field names), a row count, and one array per
column, mirroring arrow::RecordBatch. -/
structure RecordBatch where
  schema : List String
  numRows : Nat
  columns : List AArray
deriving Repr, DecidableEq

/-- Modelled from the spec: arrow::Concatenate applied to a single array
(arrow/array/concatenate.h is not among the given sources). Per the spec's
offset-normalization sentence, the result is a fresh array with offset 0
whose values are exactly the logical (sliced) view of the input. -/
def concatenateOne (a : AArray) : AArray :=
  { buffer := a.values, off := 0, len := a.values.length }

/-- The per-column step of the export loop in nextRecordBatch: a column at
offset 0 is pushed through unchanged; a column with nonzero offset is
replaced by its compaction copy. -/
def offsetZero (a : AArray) : AArray :=
  if a.off = 0 then a else concatenateOne a

/-- The batch rebuilt by nextRecordBatch before export: same schema and row
count, every column run through the offset-zeroing step
(arrow::RecordBatch::Make(record_batch->schema(), record_batch->num_rows(),
offset_zeroed_arrays)). -/
def offsetZeroedBatch (rb : RecordBatch) : RecordBatch :=
  { schema := rb.schema, numRows := rb.numRows,
    columns := rb.columns.map offsetZero }

/-- DisposableScannerAdaptor::Next over its batch iterator. The underlying
TaggedRecordBatchIterator (scanner code, not among the given sources) is
modelled from the spec as the finite queue of batches the scan will yield;
a pull pops the front, and an exhausted queue reports end-of-stream
(a null record batch) forever. -/
def adaptorNext (s : List RecordBatch) : Option RecordBatch × List RecordBatch :=
  match s with
  | [] => (none, [])
  | rb :: rest => (some rb, rest)

/-- Java_org_apache_arrow_dataset_jni_JniWrapper_nextRecordBatch: pull the
next batch from the scanner adaptor; on end-of-stream return none (the JNI
function returns false); otherwise export the offset-zeroed rebuild of the
batch (the JNI function returns true). -/
def nextRecordBatch (s : List RecordBatch) : Option RecordBatch × List RecordBatch :=
  match adaptorNext s with
  | (none, s2) => (none, s2)
  | (some rb, s2) => (some (offsetZeroedBatch rb), s2)

/-- Relation between an input column and the corresponding exported column
demanded by the offset-normalization claim. -/
def exportColumnOk (a c : AArray) : Prop :=
  (a.off ≠ 0 → c.off = 0 ∧ c.len = a.len ∧ c.values = a.values) ∧
  (a.off = 0 → c = a)

/-! Host-iterator-backed pull (MakeJavaDatasetScanner's record batch iterator). -/

/-- One observable call made from native code into the host (JVM) during a
pull: the hasNext and next methods of the NativeRecordBatchIterator, the
record-batch import at a decoded native address, and ArrowArrayRelease on
the interchange struct at that address. -/
inductive HostEvent where
  | callHasNext
  | callNext
  | importBatch (addr : Nat)
  | releaseArray (addr : Nat)
deriving Repr, DecidableEq

/-- The host-side record batch iterator, modelled per the host iterator
contract as the queue of byte arrays its next() will still yield: hasNext
answers whether the queue is nonempty, and next pops the front. -/
structure JavaIter where
  pending : List (List Nat)
deriving Repr, DecidableEq

/-- The memcpy of the first 8 bytes of the host byte array into an int64_t
memory address (little-endian byte order of the native machine). -/
def decodeAddr (bytes : List Nat) : Nat :=
  ((List.range 8).map (fun i => bytes.getD i 0 % 256 * 256 ^ i)).sum

/-- Outcome of one pull of the iterator built by MakeJavaDatasetScanner:
a record batch, end-of-stream (the lambda returns nullptr), an invalid
Status returned by the lambda, or a JniPendingException thrown by
JniGetOrThrow. -/
inductive PullOutcome where
  | batch (rb : RecordBatch)
  | endOfStream
  | invalidStatus (msg : String)
  | thrown (msg : String)
deriving Repr, DecidableEq

/-- The pull lambda of MakeJavaDatasetScanner. `imp` abstracts
arrow::dataset::jni::ImportRecordBatch (jni_util.cc, not among the given
sources): given the schema and the decoded address it either yields
the imported batch or fails. `attached` is whether GetEnv succeeds for the
calling thread. The result carries the outcome, the host iterator state
after the pull, and the trace of host calls made during the pull.
Faithful to the source order: GetEnv check, hasNext, next, memcpy decode,
then the JniGetOrThrow-wrapped import (which throws on failure, skipping the
rest of the lambda), then ArrowArrayRelease on the struct. -/
def javaPull (schema : List String) (imp : List String → Nat → Except String RecordBatch)
    (attached : Bool) (it : JavaIter) : PullOutcome × JavaIter × List HostEvent :=
  if !attached then
    (.invalidStatus "JNIEnv was not attached to current thread", it, [])
  else
    match it.pending with
    | [] => (.endOfStream, it, [.callHasNext])
    | bytes :: rest =>
      let addr := decodeAddr bytes
      match imp schema addr with
      | .error msg =>
          (.thrown msg, ⟨rest⟩, [.callHasNext, .callNext, .importBatch addr])
      | .ok rb =>
          (.batch rb, ⟨rest⟩,
           [.callHasNext, .callNext, .importBatch addr, .releaseArray addr])

/-- Outcome of one call of the async Generator built in
SimpleIteratorFragment::ScanBatchesAsync: a finished batch future, the
end-of-generation marker, or a failure propagating out of the pull. -/
inductive GenOutcome where
  | batch (rb : RecordBatch)
  | finished
  | failed (msg : String)
deriving Repr, DecidableEq

/-- The Generator's operator(): pull once from the underlying iterator via
State::Finished / State::Next; iteration end becomes AsyncGeneratorEnd, a
batch becomes a finished future, and a failing pull (a thrown
JniPendingException or an error Status) surfaces as a failure. -/
def generatorPull (schema : List String)
    (imp : List String → Nat → Except String RecordBatch)
    (attached : Bool) (it : JavaIter) : GenOutcome × JavaIter :=
  match javaPull schema imp attached it with
  | (.batch rb, it2, _) => (.batch rb, it2)
  | (.endOfStream, it2, _) => (.finished, it2)
  | (.invalidStatus m, it2, _) => (.failed m, it2)
  | (.thrown m, it2, _) => (.failed m, it2)

/-- The scan-side iterator state after n further pulls of the adaptor. -/
def afterScanPulls (s : List RecordBatch) : Nat → List RecordBatch
  | 0 => s
  | n + 1 => afterScanPulls (adaptorNext s).2 n

/-- The host iterator state after n further calls of the generator on an
attached thread. -/
def afterGenPulls (schema : List String)
    (imp : List String → Nat → Except String RecordBatch)
    (it : JavaIter) : Nat → JavaIter
  | 0 => it
  | n + 1 => afterGenPulls schema imp (generatorPull schema imp true it).2 n

/-! Reservation listener bridge (ReserveFromJava). -/

/-- The host-side reservation listener object: its reserve and unreserve
methods may raise a host exception, modelled as an error message. -/
structure JavaListener where
  reserve : Int → Except String Unit
  unreserve : Int → Except String Unit

/-- An arrow::Status as produced by the bridge: OK, Invalid (produced
natively, e.g. for a detached thread), or an error converted from a pending
host exception by CheckException. -/
inductive Status where
  | ok
  | invalid (msg : String)
  | fromJavaError (msg : String)
deriving Repr, DecidableEq

/-- ReserveFromJava::OnReservation: fail with Status::Invalid when the
calling thread is not attached; otherwise call the host listener's reserve
method and propagate any pending host exception via CheckException. -/
def onReservation (attached : Bool) (l : JavaListener) (size : Int) : Status :=
  if !attached then .invalid "JNIEnv was not attached to current thread"
  else
    match l.reserve size with
    | .error msg => .fromJavaError msg
    | .ok _ => .ok

/-- ReserveFromJava::OnRelease: same shape as OnReservation, calling the
host listener's unreserve method. -/
def onRelease (attached : Bool) (l : JavaListener) (size : Int) : Status :=
  if !attached then .invalid "JNIEnv was not attached to current thread"
  else
    match l.unreserve size with
    | .error msg => .fromJavaError msg
    | .ok _ => .ok

/-- Modelled from the spec: the allocation path of
ReservationListenableMemoryPool (jni_util.cc, not among the given sources).
Every allocation of size S first invokes the listener's OnReservation with
S and fails the allocation, leaving the allocated-bytes counter untouched,
if that call fails; otherwise the allocation proceeds and is accounted. -/
def reservePoolAllocate (attached : Bool) (l : JavaListener) (size : Int)
    (bytesAllocated : Int) : Status × Int :=
  match onReservation attached l size with
  | .ok => (.ok, bytesAllocated + size)
  | s => (s, bytesAllocated)

/-- Modelled from the spec: the deallocation path of
ReservationListenableMemoryPool. Every free of size S invokes the
listener's OnRelease with S and propagates its failure, leaving the
allocated-bytes counter untouched on failure. -/
def reservePoolFree (attached : Bool) (l : JavaListener) (size : Int)
    (bytesAllocated : Int) : Status × Int :=
  match onRelease attached l size with
  | .ok => (.ok, bytesAllocated - size)
  | s => (s, bytesAllocated)

/-! Memory pool handle lifecycle (NativeMemoryPool natives). -/

/-- The default memory pool handle established at JNI_OnLoad (the address of
arrow::default_memory_pool(), a process-wide singleton; any fixed nonzero
value serves in the model). -/
def default_memory_pool_id : Nat := 1

/-- The native heap state relevant to memory pools: the live listenable
pools (handle paired with the listener global reference the pool's
ReserveFromJava holds), the handles whose pools were already deleted, the
live JNI global references, and a freshness counter for new allocations. -/
structure PoolHeap where
  live : List (Nat × Nat)
  freed : List Nat
  refs : List Nat
  fresh : Nat
deriving Repr, DecidableEq

/-- Observable native side effects of releaseMemoryPool. -/
inductive PoolEvent where
  | deletePool (h : Nat)
  | deleteGlobalRef (r : Nat)
deriving Repr, DecidableEq

/-- Undefined behavior reached by the model: dereferencing a pool pointer
that does not point at a live pool (a deleted or never-allocated handle). -/
inductive PoolErr where
  | useAfterFree
deriving Repr, DecidableEq

/-- An empty native heap. -/
def initHeap : PoolHeap :=
  { live := [], freed := [], refs := [], fresh := 0 }

/-- Java_org_apache_arrow_dataset_jni_NativeMemoryPool_createListenableMemoryPool:
NewGlobalRef on the host listener, then a new ReservationListenableMemoryPool
wrapping the default pool and a ReserveFromJava over that reference. The
model hands out addresses that are fresh, nonzero and distinct from the
default handle (the allocator never hands out the default pool's address or
null for a new object). Returns the new heap and the pool handle. -/
def createListenableMemoryPool (s : PoolHeap) : PoolHeap × Nat :=
  let ref := 2 * s.fresh + 2
  let handle := 2 * s.fresh + 3
  ({ live := (handle, ref) :: s.live, freed := s.freed,
     refs := ref :: s.refs, fresh := s.fresh + 1 }, handle)

/-- Java_org_apache_arrow_dataset_jni_NativeMemoryPool_releaseMemoryPool:
return at once for the default pool handle; return at once for a null
pointer; otherwise dereference the handle as a ReservationListenableMemoryPool
(reading its listener), delete the pool, and DeleteGlobalRef the listener's
host reference. Dereferencing a handle that is not a live pool (in
particular a handle already released) reads freed memory: undefined
behavior, modelled as an explicit error. -/
def releaseMemoryPool (s : PoolHeap) (h : Nat) :
    Except PoolErr (PoolHeap × List PoolEvent) :=
  if h = default_memory_pool_id then .ok (s, [])
  else if h = 0 then .ok (s, [])
  else
    match s.live.lookup h with
    | some ref =>
        .ok ({ live := s.live.filter (fun p => p.1 ≠ h),
               freed := h :: s.freed,
               refs := s.refs.filter (fun x => x ≠ ref),
               fresh := s.fresh },
             [.deletePool h, .deleteGlobalRef ref])
    | none => .error .useAfterFree

/-! File format resolution and the dataset factory / writer entry points. -/

/-- The file formats the wrapper can resolve. -/
inductive FileFormat where
  | parquet
deriving Repr, DecidableEq

/-- GetFileFormat: id 0 yields the Parquet file format; any other id yields
Status::Invalid with a message naming the illegal id. -/
def GetFileFormat (id : Int) : Except String FileFormat :=
  if id = 0 then .ok .parquet
  else .error ("illegal file format id: " ++ toString id)

/-- A constructed dataset factory (the filesystem collaborators are external
per the spec; the model keeps the data that flows through the wrapper). -/
structure DatasetFactory where
  uri : String
  format : FileFormat
deriving Repr, DecidableEq

/-- Java_org_apache_arrow_dataset_file_JniWrapper_makeFileSystemDatasetFactory:
resolve the file format (JniGetOrThrow throws on failure, before any factory
is constructed), then construct the factory. -/
def makeFileSystemDatasetFactory (uri : String) (formatId : Int) :
    Except String DatasetFactory :=
  match GetFileFormat formatId with
  | .error m => .error m
  | .ok f => .ok { uri := uri, format := f }

/-- A constructed write job (the filesystem, partitioning and writer
collaborators are external per the spec). -/
structure WriteJob where
  format : FileFormat
  uri : String
deriving Repr, DecidableEq

/-- Java_org_apache_arrow_dataset_file_JniWrapper_writeFromScannerToFile:
build the scanner over the host iterator, then resolve the file format
(JniGetOrThrow throws on an illegal id, before any write options or writer
are constructed), then write. -/
def writeFromScannerToFile (formatId : Int) (uri : String) :
    Except String WriteJob :=
  match GetFileFormat formatId with
  | .error m => .error m
  | .ok f => .ok { format := f, uri := uri }

/-! Scanner creation and projection (createScanner). -/

/-- Modelled from the spec: arrow::dataset::ScannerBuilder (dataset library,
not among the given sources). Dataset::NewScan yields a builder over the
dataset's schema with no projection installed; Project installs the given
column list; Finish produces a scanner whose projected schema is the
dataset's full schema when no projection was installed, and the projected
columns when one was. -/
structure ScannerBuilder where
  datasetSchema : List String
  projection : Option (List String)
  batchSize : Int
deriving Repr, DecidableEq

/-- The scanner produced by ScannerBuilder::Finish, keeping the scan options
queried by getSchemaFromScanner. -/
structure Scanner where
  projectedSchema : List String
  batchSize : Int
deriving Repr, DecidableEq

/-- ScannerBuilder::Finish (modelled from the spec, see ScannerBuilder). -/
def ScannerBuilder.finish (b : ScannerBuilder) : Scanner :=
  { projectedSchema :=
      match b.projection with
      | none => b.datasetSchema
      | some cols => cols,
    batchSize := b.batchSize }

/-- The builder state reached inside
Java_org_apache_arrow_dataset_jni_JniWrapper_createScanner: NewScan on the
dataset, Project only when the columns array is non-null, then BatchSize. -/
def createScannerBuilder (datasetSchema : List String)
    (columns : Option (List String)) (batchSize : Int) : ScannerBuilder :=
  let b : ScannerBuilder :=
    { datasetSchema := datasetSchema, projection := none, batchSize := 0 }
  let b :=
    match columns with
    | none => b
    | some cols => { b with projection := some cols }
  { b with batchSize := batchSize }

/-- createScanner end to end: the finished scanner. -/
def createScanner (datasetSchema : List String)
    (columns : Option (List String)) (batchSize : Int) : Scanner :=
  (createScannerBuilder datasetSchema columns batchSize).finish

/-! Concrete example values used by witnesses and counterexamples. -/

/-- A column already at offset 0. -/
def exArrZero : AArray := { buffer := [10, 20], off := 0, len := 2 }

/-- A column with a nonzero offset (a slice of a larger buffer). -/
def exArrSliced : AArray := { buffer := [1, 2, 3, 4, 5], off := 2, len := 2 }

/-- A two-column record batch. -/
def exBatch : RecordBatch :=
  { schema := ["a", "b"], numRows := 2, columns := [exArrZero, exArrSliced] }

/-- A schema for the pull examples. -/
def schemaEx : List String := ["a", "b"]

/-- An empty record batch matching schemaEx. -/
def rbEx2 : RecordBatch := { schema := schemaEx, numRows := 0, columns := [] }

/-- An import function that always fails. -/
def impFailEx : List String → Nat → Except String RecordBatch :=
  fun _ _ => .error "import failed"

/-- An import function that always succeeds with rbEx2. -/
def impOkEx : List String → Nat → Except String RecordBatch :=
  fun _ _ => .ok rbEx2

/-- A host iterator holding one byte array encoding native address 42. -/
def itOneEx : JavaIter := ⟨[[42, 0, 0, 0, 0, 0, 0, 0]]⟩

/-- A host listener whose reserve and unreserve both raise. -/
def badListener : JavaListener :=
  { reserve := fun _ => .error "host reservation failed",
    unreserve := fun _ => .error "host release failed" }

/-! Helper lemmas. -/

/-- A list is Forall₂-related to its own map whenever each element is related
to its image. -/
theorem forall₂_map_self {α : Type} (R : α → α → Prop) (f : α → α)
    (l : List α) (h : ∀ a ∈ l, R a (f a)) : List.Forall₂ R l (l.map f) := by
  induction l with
  | nil => exact List.Forall₂.nil
  | cons x xs ih =>
      exact List.Forall₂.cons (h x (List.mem_cons_self x xs))
        (ih fun a ha => h a (List.mem_cons_of_mem x ha))

/-- The per-column export step satisfies the offset-normalization relation on
every well-formed column. -/
theorem exportColumnOk_offsetZero (a : AArray) (hw : a.wf) :
    exportColumnOk a (offsetZero a) := by
  by_cases h : a.off = 0
  · exact ⟨fun hne => absurd h hne, fun _ => by simp [offsetZero, h]⟩
  · refine ⟨fun _ => ⟨?_, ?_, ?_⟩, fun h0 => absurd h0 h⟩
    · simp [offsetZero, h, concatenateOne]
    · simp only [offsetZero, h, if_false, concatenateOne]
      show a.values.length = a.len
      unfold AArray.values
      unfold AArray.wf at hw
      rw [List.length_take, List.length_drop]
      omega
    · simp only [offsetZero, h, if_false, concatenateOne]
      show AArray.values ⟨a.values, 0, a.values.length⟩ = a.values
      unfold AArray.values
      simp

/-! Claim theorems. -/

/-- Claim C1: every record batch returned by nextRecordBatch is exported as
the rebuild in which each column with nonzero offset is replaced by a
compacted copy with offset 0, the same logical length and the identical
logical values, each column already at offset 0 is passed through as the
same array, and the exported batch keeps the original schema and row
count. -/
theorem nextRecordBatch_offset_normalization
    (s s2 : List RecordBatch) (rb : RecordBatch)
    (hwf : ∀ a ∈ rb.columns, a.wf)
    (hpull : adaptorNext s = (some rb, s2)) :
    nextRecordBatch s = (some (offsetZeroedBatch rb), s2) ∧
    (offsetZeroedBatch rb).schema = rb.schema ∧
    (offsetZeroedBatch rb).numRows = rb.numRows ∧
    List.Forall₂ exportColumnOk rb.columns (offsetZeroedBatch rb).columns := by
  refine ⟨?_, rfl, rfl, ?_⟩
  · unfold nextRecordBatch
    rw [hpull]
  · exact forall₂_map_self exportColumnOk offsetZero rb.columns
      (fun a ha => exportColumnOk_offsetZero a (hwf a ha))

/-- Witness for C1 at a concrete one-batch stream with one offset-0 and one
sliced column. -/
theorem nextRecordBatch_offset_normalization_witness :
    (∀ a ∈ exBatch.columns, a.wf) ∧
    adaptorNext [exBatch] = (some exBatch, []) ∧
    (nextRecordBatch [exBatch] = (some (offsetZeroedBatch exBatch), []) ∧
     (offsetZeroedBatch exBatch).schema = exBatch.schema ∧
     (offsetZeroedBatch exBatch).numRows = exBatch.numRows ∧
     List.Forall₂ exportColumnOk exBatch.columns (offsetZeroedBatch exBatch).columns) :=
  ⟨by decide, rfl,
   nextRecordBatch_offset_normalization [exBatch] [] exBatch (by decide) rfl⟩

/-- Claim C2 counterexample: at a concrete pull where the host's next
returns a pointer (callNext is in the trace) and the import fails, the
failure is reported, yet the trace ends at the import: no ArrowArrayRelease
call is made for the struct at the decoded address 42, because JniGetOrThrow
throws before the release line of the lambda runs. -/
theorem javaPull_no_release_on_error_counterexample :
    (javaPull schemaEx impFailEx true itOneEx).1 = .thrown "import failed" ∧
    (javaPull schemaEx impFailEx true itOneEx).2.2 =
      [.callHasNext, .callNext, .importBatch 42] ∧
    HostEvent.releaseArray 42 ∉ (javaPull schemaEx impFailEx true itOneEx).2.2 := by
  refine ⟨rfl, by decide, by decide⟩

/-- Claim C2 (amended): when the host iterator yields a pointer, an import
failure is reported as a typed failure (a thrown error carrying the import
message) with no partial output and with no release call on the error path;
the wrapper itself releases the interchange struct only immediately after a
successful import. -/
theorem javaPull_release_only_after_successful_import
    (schema : List String) (imp : List String → Nat → Except String RecordBatch)
    (it : JavaIter) (bytes : List Nat) (rest : List (List Nat))
    (m : String) (rb : RecordBatch) (hq : it.pending = bytes :: rest) :
    (imp schema (decodeAddr bytes) = .error m →
      javaPull schema imp true it =
        (.thrown m, ⟨rest⟩,
         [.callHasNext, .callNext, .importBatch (decodeAddr bytes)])) ∧
    (imp schema (decodeAddr bytes) = .ok rb →
      javaPull schema imp true it =
        (.batch rb, ⟨rest⟩,
         [.callHasNext, .callNext, .importBatch (decodeAddr bytes),
          .releaseArray (decodeAddr bytes)])) := by
  constructor <;> intro h <;> simp [javaPull, hq, h]

/-- Witness for the amended C2 at the concrete failing import. -/
theorem javaPull_release_only_after_successful_import_witness :
    itOneEx.pending = [[42, 0, 0, 0, 0, 0, 0, 0]] ∧
    ((impFailEx schemaEx (decodeAddr [42, 0, 0, 0, 0, 0, 0, 0]) = .error "import failed" →
       javaPull schemaEx impFailEx true itOneEx =
         (.thrown "import failed", ⟨[]⟩,
          [.callHasNext, .callNext, .importBatch (decodeAddr [42, 0, 0, 0, 0, 0, 0, 0])])) ∧
     (impFailEx schemaEx (decodeAddr [42, 0, 0, 0, 0, 0, 0, 0]) = .ok rbEx2 →
       javaPull schemaEx impFailEx true itOneEx =
         (.batch rbEx2, ⟨[]⟩,
          [.callHasNext, .callNext, .importBatch (decodeAddr [42, 0, 0, 0, 0, 0, 0, 0]),
           .releaseArray (decodeAddr [42, 0, 0, 0, 0, 0, 0, 0])]))) :=
  ⟨rfl, javaPull_release_only_after_successful_import schemaEx impFailEx itOneEx
     [42, 0, 0, 0, 0, 0, 0, 0] [] "import failed" rbEx2 rfl⟩

/-- Claim C3: the code does not make a second releaseMemoryPool on the same
already-released handle a silent no-op. Concretely: create one listenable
pool (handle 3, listener reference 2) on an empty heap; the first release
succeeds and deletes the pool, and the second release on the same handle
dereferences the freed pool (pool->get_listener() on a deleted object),
which is undefined behavior, not a no-op. -/
theorem releaseMemoryPool_double_release_undefined :
    (createListenableMemoryPool initHeap).2 = 3 ∧
    releaseMemoryPool (createListenableMemoryPool initHeap).1 3 =
      .ok ({ live := [], freed := [3], refs := [], fresh := 1 },
           [.deletePool 3, .deleteGlobalRef 2]) ∧
    releaseMemoryPool { live := [], freed := [3], refs := [], fresh := 1 } 3 =
      .error .useAfterFree := by
  refine ⟨rfl, rfl, rfl⟩

/-- Once the scan-side queue is empty it stays empty under further pulls. -/
theorem afterScanPulls_nil (n : Nat) : afterScanPulls [] n = [] := by
  induction n with
  | zero => rfl
  | succ n ih => simpa [afterScanPulls, adaptorNext] using ih

/-- A finished generator pull on an attached thread means the host queue is
empty and the iterator state is unchanged. -/
theorem generatorPull_finished_empty (schema : List String)
    (imp : List String → Nat → Except String RecordBatch) (it : JavaIter)
    (hg : (generatorPull schema imp true it).1 = .finished) :
    it.pending = [] ∧ generatorPull schema imp true it = (.finished, it) := by
  cases hp : it.pending with
  | nil => exact ⟨rfl, by simp [generatorPull, javaPull, hp]⟩
  | cons bytes rest =>
      exfalso
      cases himp : imp schema (decodeAddr bytes) with
      | error m => simp [generatorPull, javaPull, hp, himp] at hg
      | ok rb => simp [generatorPull, javaPull, hp, himp] at hg

/-- An empty host queue is preserved by further generator pulls. -/
theorem afterGenPulls_nil (schema : List String)
    (imp : List String → Nat → Except String RecordBatch) (it : JavaIter)
    (hp : it.pending = []) (n : Nat) :
    afterGenPulls schema imp it n = it := by
  induction n generalizing it with
  | zero => rfl
  | succ n ih =>
      have hstate : (generatorPull schema imp true it).2 = it := by
        simp [generatorPull, javaPull, hp]
      rw [afterGenPulls, hstate]
      exact ih it hp

/-- Claim C4: for both the scan adaptor (DisposableScannerAdaptor::Next) and
the foreign-batch-source generator, once a pull reports end-of-stream every
subsequent pull also reports end-of-stream: the stream never resumes, never
restarts, and never fails differently from the first end-of-stream
report. -/
theorem single_pass_exhaustion
    (s : List RecordBatch) (schema : List String)
    (imp : List String → Nat → Except String RecordBatch) (it : JavaIter)
    (hs : (adaptorNext s).1 = none)
    (hg : (generatorPull schema imp true it).1 = .finished) :
    (∀ n, adaptorNext (afterScanPulls s n) = (none, [])) ∧
    (∀ n, generatorPull schema imp true (afterGenPulls schema imp it n) =
            (.finished, it)) := by
  have hsnil : s = [] := by
    cases s with
    | nil => rfl
    | cons rb rest => simp [adaptorNext] at hs
  have hpend := generatorPull_finished_empty schema imp it hg
  subst hsnil
  constructor
  · intro n
    rw [afterScanPulls_nil n]
    rfl
  · intro n
    rw [afterGenPulls_nil schema imp it hpend.1 n]
    exact hpend.2

/-- Witness for C4 at an exhausted scan queue and an exhausted host
iterator, pulled 3 further times each. -/
theorem single_pass_exhaustion_witness :
    (adaptorNext ([] : List RecordBatch)).1 = none ∧
    (generatorPull schemaEx impOkEx true ⟨[]⟩).1 = .finished ∧
    adaptorNext (afterScanPulls [] 3) = (none, []) ∧
    generatorPull schemaEx impOkEx true (afterGenPulls schemaEx impOkEx ⟨[]⟩ 3) =
      (.finished, ⟨[]⟩) :=
  ⟨rfl, rfl,
   (single_pass_exhaustion [] schemaEx impOkEx ⟨[]⟩ rfl rfl).1 3,
   (single_pass_exhaustion [] schemaEx impOkEx ⟨[]⟩ rfl rfl).2 3⟩

/-- Claim C5: per pull, the source calls hasNext first; on false it signals
end-of-stream with no further host calls for that pull; on true it calls
next, decodes the byte buffer as an 8-byte native address, imports against
the supplied schema, and releases the interchange struct immediately after
a successful import. -/
theorem foreign_batch_source_pull_protocol
    (schema : List String) (imp : List String → Nat → Except String RecordBatch)
    (it : JavaIter) (bytes : List Nat) (rest : List (List Nat)) (rb : RecordBatch) :
    (it.pending = [] →
      javaPull schema imp true it = (.endOfStream, it, [.callHasNext])) ∧
    (it.pending = bytes :: rest → imp schema (decodeAddr bytes) = .ok rb →
      javaPull schema imp true it =
        (.batch rb, ⟨rest⟩,
         [.callHasNext, .callNext, .importBatch (decodeAddr bytes),
          .releaseArray (decodeAddr bytes)])) := by
  constructor
  · intro h
    simp [javaPull, h]
  · intro h hi
    simp [javaPull, h, hi]

/-- Witness for C5: an exhausted iterator and a one-element iterator whose
batch imports successfully. -/
theorem foreign_batch_source_pull_protocol_witness :
    (⟨[]⟩ : JavaIter).pending = [] ∧
    javaPull schemaEx impOkEx true ⟨[]⟩ = (.endOfStream, ⟨[]⟩, [.callHasNext]) ∧
    itOneEx.pending = [[42, 0, 0, 0, 0, 0, 0, 0]] ∧
    impOkEx schemaEx (decodeAddr [42, 0, 0, 0, 0, 0, 0, 0]) = .ok rbEx2 ∧
    javaPull schemaEx impOkEx true itOneEx =
      (.batch rbEx2, ⟨[]⟩,
       [.callHasNext, .callNext, .importBatch (decodeAddr [42, 0, 0, 0, 0, 0, 0, 0]),
        .releaseArray (decodeAddr [42, 0, 0, 0, 0, 0, 0, 0])]) :=
  ⟨rfl,
   (foreign_batch_source_pull_protocol schemaEx impOkEx ⟨[]⟩ [] [] rbEx2).1 rfl,
   rfl, rfl,
   (foreign_batch_source_pull_protocol schemaEx impOkEx itOneEx
      [42, 0, 0, 0, 0, 0, 0, 0] [] rbEx2).2 rfl rfl⟩

/-- Claim C6: if the host-side listener raises during the OnReservation or
OnRelease call for a size, the error propagates as a non-OK result of the
reservation and of the pool allocation/release built on it; the operation
never silently proceeds unaccounted (the allocated-bytes counter is left
unchanged). -/
theorem reservation_listener_error_propagates
    (l : JavaListener) (size : Int) (m : String) (bytes : Int) :
    (l.reserve size = .error m →
      onReservation true l size = .fromJavaError m ∧
      Status.fromJavaError m ≠ Status.ok ∧
      reservePoolAllocate true l size bytes = (.fromJavaError m, bytes)) ∧
    (l.unreserve size = .error m →
      onRelease true l size = .fromJavaError m ∧
      Status.fromJavaError m ≠ Status.ok ∧
      reservePoolFree true l size bytes = (.fromJavaError m, bytes)) := by
  constructor
  · intro h
    refine ⟨by simp [onReservation, h], by simp, ?_⟩
    simp [reservePoolAllocate, onReservation, h]
  · intro h
    refine ⟨by simp [onRelease, h], by simp, ?_⟩
    simp [reservePoolFree, onRelease, h]

/-- Witness for C6 with a listener that raises on both calls, at size 64. -/
theorem reservation_listener_error_propagates_witness :
    badListener.reserve 64 = .error "host reservation failed" ∧
    badListener.unreserve 64 = .error "host release failed" ∧
    (onReservation true badListener 64 = .fromJavaError "host reservation failed" ∧
     Status.fromJavaError "host reservation failed" ≠ Status.ok ∧
     reservePoolAllocate true badListener 64 0 =
       (.fromJavaError "host reservation failed", 0)) ∧
    (onRelease true badListener 64 = .fromJavaError "host release failed" ∧
     Status.fromJavaError "host release failed" ≠ Status.ok ∧
     reservePoolFree true badListener 64 0 =
       (.fromJavaError "host release failed", 0)) :=
  ⟨rfl, rfl,
   (reservation_listener_error_propagates badListener 64 "host reservation failed" 0).1 rfl,
   (reservation_listener_error_propagates badListener 64 "host release failed" 0).2 rfl⟩

/-- Claim C7: each cross-runtime call — the reservation and release
callbacks and the per-pull batch retrieval — checks on its own that the
calling thread is attached (GetEnv), and when it is not, returns an
invalid-status per-call error without making any host call, rather than
aborting (every function of the embedding is total and returns this error
value). -/
theorem detached_thread_is_recoverable_error
    (l : JavaListener) (size : Int) (schema : List String)
    (imp : List String → Nat → Except String RecordBatch) (it : JavaIter) :
    onReservation false l size =
      .invalid "JNIEnv was not attached to current thread" ∧
    onRelease false l size =
      .invalid "JNIEnv was not attached to current thread" ∧
    javaPull schema imp false it =
      (.invalidStatus "JNIEnv was not attached to current thread", it, []) :=
  ⟨rfl, rfl, rfl⟩

/-- Claim C8: file format id 0 resolves to the Parquet file format, and
every other id fails with an invalid-argument error naming the illegal id,
in which case neither the dataset factory nor the write job is
constructed. -/
theorem file_format_id_resolution (id : Int) (uri : String) (h : id ≠ 0) :
    GetFileFormat 0 = .ok .parquet ∧
    makeFileSystemDatasetFactory uri 0 = .ok { uri := uri, format := .parquet } ∧
    GetFileFormat id = .error ("illegal file format id: " ++ toString id) ∧
    makeFileSystemDatasetFactory uri id =
      .error ("illegal file format id: " ++ toString id) ∧
    writeFromScannerToFile id uri =
      .error ("illegal file format id: " ++ toString id) := by
  refine ⟨rfl, rfl, ?_, ?_, ?_⟩ <;>
    simp [GetFileFormat, makeFileSystemDatasetFactory, writeFromScannerToFile, h]

/-- Witness for C8 at the illegal id 7. -/
theorem file_format_id_resolution_witness :
    (7 : Int) ≠ 0 ∧
    (GetFileFormat 0 = .ok .parquet ∧
     makeFileSystemDatasetFactory "file:///data" 0 =
       .ok { uri := "file:///data", format := .parquet } ∧
     GetFileFormat 7 = .error ("illegal file format id: " ++ toString (7 : Int)) ∧
     makeFileSystemDatasetFactory "file:///data" 7 =
       .error ("illegal file format id: " ++ toString (7 : Int)) ∧
     writeFromScannerToFile 7 "file:///data" =
       .error ("illegal file format id: " ++ toString (7 : Int))) :=
  ⟨by decide, file_format_id_resolution 7 "file:///data" (by decide)⟩

/-- Claim C9: releaseMemoryPool never destroys the default pool — called
with the default handle it returns at once with no side effects; releasing
a live dynamically created listenable pool destroys exactly that pool and
deletes the global reference to its host-side listener exactly once (one
deleteGlobalRef event in the trace). -/
theorem releaseMemoryPool_default_and_listener_ref
    (s : PoolHeap) (h r : Nat)
    (hlive : s.live.lookup h = some r)
    (hd : h ≠ default_memory_pool_id) (h0 : h ≠ 0) :
    releaseMemoryPool s default_memory_pool_id = .ok (s, []) ∧
    releaseMemoryPool s h =
      .ok ({ live := s.live.filter (fun p => p.1 ≠ h),
             freed := h :: s.freed,
             refs := s.refs.filter (fun x => x ≠ r),
             fresh := s.fresh },
           [.deletePool h, .deleteGlobalRef r]) ∧
    List.count (PoolEvent.deleteGlobalRef r)
      [PoolEvent.deletePool h, PoolEvent.deleteGlobalRef r] = 1 := by
  refine ⟨by simp [releaseMemoryPool], ?_, ?_⟩
  · simp [releaseMemoryPool, hd, h0, hlive]
  · simp [List.count_cons]

/-- Witness for C9 on a heap holding one listenable pool (handle 3,
listener reference 2). -/
theorem releaseMemoryPool_default_and_listener_ref_witness :
    (createListenableMemoryPool initHeap).1.live.lookup 3 = some 2 ∧
    (3 : Nat) ≠ default_memory_pool_id ∧
    (3 : Nat) ≠ 0 ∧
    (releaseMemoryPool (createListenableMemoryPool initHeap).1 default_memory_pool_id =
       .ok ((createListenableMemoryPool initHeap).1, []) ∧
     releaseMemoryPool (createListenableMemoryPool initHeap).1 3 =
       .ok ({ live := (createListenableMemoryPool initHeap).1.live.filter
                (fun p => p.1 ≠ 3),
              freed := 3 :: (createListenableMemoryPool initHeap).1.freed,
              refs := (createListenableMemoryPool initHeap).1.refs.filter
                (fun x => x ≠ 2),
              fresh := (createListenableMemoryPool initHeap).1.fresh },
            [.deletePool 3, .deleteGlobalRef 2]) ∧
     List.count (PoolEvent.deleteGlobalRef 2)
       [PoolEvent.deletePool 3, PoolEvent.deleteGlobalRef 2] = 1) :=
  ⟨rfl, by decide, by decide,
   releaseMemoryPool_default_and_listener_ref
     (createListenableMemoryPool initHeap).1 3 2 rfl (by decide) (by decide)⟩

/-- Claim C10: createScanner called with a null columns array installs no
projection on the builder, and the resulting scanner's projected schema is
the dataset's full schema; a projection is installed exactly when a
non-null column list is passed. -/
theorem createScanner_null_columns_full_schema
    (ds : List String) (bs : Int) (cols : List String) :
    (createScannerBuilder ds none bs).projection = none ∧
    (createScanner ds none bs).projectedSchema = ds ∧
    (createScannerBuilder ds (some cols) bs).projection = some cols ∧
    (createScanner ds (some cols) bs).projectedSchema = cols :=
  ⟨rfl, rfl, rfl, rfl⟩

end ArrowJni
